import Mathlib

/-!
Shallow embedding of `models.py` from the `imitation-learning` repository.

Tensors are idealised as real-valued functions: a batch of vectors of width
`d` is a function `Fin B → Fin d → ℝ`, a batch of scalars is `Fin B → ℝ`,
and a batch of discrete actions is `Fin B → Fin action_size`.  Network
parameters are explicit structures of weight matrices and bias vectors.
Python keyword defaults (`lengthscale=1`, `gamma=1`, `sigma=1`) are passed
explicitly at each call site, with the source's default value where the
source call relies on the default.  The one stateful unit,
`GMMILDiscriminator.predict_reward`, which assigns `self.gamma_1` and
`self.gamma_2` on its first call, is embedded with explicit state passing:
it receives the pre-call attribute state and returns the post-call state,
and returns `none` in the case (unreachable from the class's own code
paths) where `gamma_1` is set but `gamma_2` is not, which in Python would
raise a `TypeError` inside `_gaussian_kernel`.
-/

namespace IL

/-- torch.sigmoid / nn.Sigmoid: σ(x) = 1 / (1 + exp (-x)). -/
noncomputable def sigmoid (x : ℝ) : ℝ := 1 / (1 + Real.exp (-x))

/-- torch.log1p: log1p(x) = log (1 + x). -/
noncomputable def log1p (x : ℝ) : ℝ := Real.log (1 + x)

/-- Elementwise tanh of a vector (nn.Tanh applied to a row). -/
noncomputable def tanhVec {n : ℕ} (x : Fin n → ℝ) : Fin n → ℝ :=
  fun i => Real.tanh (x i)

/-- Parameters of nn.Linear i o: weight matrix and bias. -/
structure LinearParams (i o : ℕ) where
  W : Fin o → Fin i → ℝ
  b : Fin o → ℝ

/-- nn.Linear forward: x ↦ W x + b, on one row. -/
noncomputable def LinearParams.apply {i o : ℕ} (p : LinearParams i o)
    (x : Fin i → ℝ) : Fin o → ℝ :=
  fun j => (∑ k, p.W j k * x k) + p.b j

/-- Parameters of the three-layer nn.Sequential
nn.Linear(i, h), nn.Tanh(), nn.Linear(h, h), nn.Tanh(), nn.Linear(h, o)
used (with various sizes) by Actor, Critic, GAILDiscriminator (before its
final Sigmoid), AIRLDiscriminator's shaping network and EmbeddingNetwork. -/
structure MLPParams (i h o : ℕ) where
  l1 : LinearParams i h
  l2 : LinearParams h h
  l3 : LinearParams h o

/-- Forward pass of the three-layer tanh MLP on one row. -/
noncomputable def MLPParams.apply {i h o : ℕ} (p : MLPParams i h o)
    (x : Fin i → ℝ) : Fin o → ℝ :=
  p.l3.apply (tanhVec (p.l2.apply (tanhVec (p.l1.apply x))))

/-- Source `_join_state_action`: concatenates the state with the one-hot
(float) encoding of the action, along dim 1, on one batch row.  Entry
`i < s` is the state entry; entry `i ≥ s` is 1 exactly when `i - s` is the
action index. -/
noncomputable def _join_state_action {s a : ℕ} (state : Fin s → ℝ)
    (action : Fin a) : Fin (s + a) → ℝ :=
  fun i =>
    if h : (i : ℕ) < s then state ⟨i, h⟩
    else if (i : ℕ) - s = (action : ℕ) then 1 else 0

/-- Input width of a discriminator head: `state_size` when `state_only`,
otherwise `state_size + action_size`. -/
def inputSize : Bool → ℕ → ℕ → ℕ
  | true, s, _ => s
  | false, s, a => s + a

/-- The per-row input each discriminator builds:
`state if self.state_only else _join_state_action(state, action, action_size)`. -/
noncomputable def stateActionInput {s a : ℕ} :
    (so : Bool) → (Fin s → ℝ) → Fin a → (Fin (inputSize so s a) → ℝ)
  | true, state, _ => state
  | false, state, action => _join_state_action state action

/-- Batched version of `stateActionInput`. -/
noncomputable def batchInput {B s a : ℕ} (so : Bool)
    (state : Fin B → Fin s → ℝ) (action : Fin B → Fin a) :
    Fin B → Fin (inputSize so s a) → ℝ :=
  fun b => stateActionInput so (state b) (action b)

/-- Source `_squared_distance`: X, Y are divided by the lengthscale, then
the matrix XXᵀ1 - 2XYᵀ + 1YYᵀ of pairwise squared distances is formed and
clamped below at 0 (torch.clamp(…, min=0) = max with 0). -/
noncomputable def _squared_distance {n m d : ℕ}
    (X : Fin n → Fin d → ℝ) (Y : Fin m → Fin d → ℝ) (lengthscale : ℝ) :
    Fin n → Fin m → ℝ :=
  fun i j =>
    max ((∑ k, (X i k / lengthscale) ^ 2)
      - 2 * (∑ k, (X i k / lengthscale) * (Y j k / lengthscale))
      + (∑ k, (Y j k / lengthscale) ^ 2)) 0

/-- Source `_gaussian_kernel`, elementwise: exp (-gamma * distance).
torch.exp acts elementwise, so the tensor version is this map applied to
each entry. -/
noncomputable def _gaussian_kernel (distance : ℝ) (gamma : ℝ) : ℝ :=
  Real.exp (-gamma * distance)

/-- tensor.mean(dim=1) of an n × m matrix: the vector of row means. -/
noncomputable def meanDim1 {n m : ℕ} (M : Fin n → Fin m → ℝ) : Fin n → ℝ :=
  fun i => (∑ j, M i j) / (m : ℝ)

/-- Row-major flattening of a matrix into a list, as torch views an
n × m tensor when reducing over all elements. -/
def flattenMatrix {n m : ℕ} (M : Fin n → Fin m → ℝ) : List ℝ :=
  (List.finRange n).flatMap fun i => (List.finRange m).map fun j => M i j

/-- tensor.median() over all elements: torch returns the lower median,
i.e. the element of rank (N-1)/2 (0-indexed) of the sorted values. -/
noncomputable def medianList (l : List ℝ) : ℝ :=
  (l.mergeSort (fun x y => decide (x ≤ y))).getD ((l.length - 1) / 2) 0

/-- torch.distributions.Categorical, modelled by its probability vector.
When constructed from logits, torch normalises them through a softmax. -/
structure Categorical (n : ℕ) where
  probs : Fin n → ℝ

/-- The probability vector torch.distributions.Categorical(logits=l) holds:
the softmax of the logits. -/
noncomputable def softmaxProbs {n : ℕ} (logits : Fin n → ℝ) : Fin n → ℝ :=
  fun i => Real.exp (logits i) / ∑ j, Real.exp (logits j)

/-- Source class `Actor`: its `self.actor` MLP. -/
structure Actor (state_size action_size hidden_size : ℕ) where
  actor : MLPParams state_size hidden_size action_size

/-- Source method `Actor.forward`: per batch row, Categorical(logits=self.actor(state)). -/
noncomputable def Actor.forward {s a h B : ℕ} (m : Actor s a h)
    (state : Fin B → Fin s → ℝ) : Fin B → Categorical a :=
  fun b => ⟨softmaxProbs (m.actor.apply (state b))⟩

/-- Source class `Critic`: its `self.critic` MLP. -/
structure Critic (state_size hidden_size : ℕ) where
  critic : MLPParams state_size hidden_size 1

/-- Source method `Critic.forward`: self.critic(state).squeeze(dim=1). -/
noncomputable def Critic.forward {s h B : ℕ} (m : Critic s h)
    (state : Fin B → Fin s → ℝ) : Fin B → ℝ :=
  fun b => m.critic.apply (state b) 0

/-- Source class `ActorCritic`: an Actor and a Critic. -/
structure ActorCritic (state_size action_size hidden_size : ℕ) where
  actor : Actor state_size action_size hidden_size
  critic : Critic state_size hidden_size

/-- Source method `ActorCritic.forward`: the pair (policy, value). -/
noncomputable def ActorCritic.forward {s a h B : ℕ} (m : ActorCritic s a h)
    (state : Fin B → Fin s → ℝ) : (Fin B → Categorical a) × (Fin B → ℝ) :=
  (m.actor.forward state, m.critic.forward state)

/-- Source method `ActorCritic.log_prob`: log π(a|s), the log of the Categorical
probability of the taken action. -/
noncomputable def ActorCritic.log_prob {s a h B : ℕ} (m : ActorCritic s a h)
    (state : Fin B → Fin s → ℝ) (action : Fin B → Fin a) : Fin B → ℝ :=
  fun b => Real.log ((m.actor.forward state b).probs (action b))

/-- Source class `GAILDiscriminator`: the `state_only` flag and the
`self.discriminator` MLP (whose final nn.Sigmoid is applied in `forward`
below); the MLP input width follows the flag. -/
structure GAILDiscriminator (state_size action_size hidden_size : ℕ) where
  state_only : Bool
  discriminator : MLPParams (inputSize state_only state_size action_size) hidden_size 1

/-- Source method `GAILDiscriminator.forward`: the sigmoid-squashed scalar head applied to
the (state or joined state-action) input, squeezed over dim 1. -/
noncomputable def GAILDiscriminator.forward {s a h B : ℕ}
    (d : GAILDiscriminator s a h)
    (state : Fin B → Fin s → ℝ) (action : Fin B → Fin a) : Fin B → ℝ :=
  fun b => sigmoid (d.discriminator.apply (batchInput d.state_only state action b) 0)

/-- Source method `GAILDiscriminator.predict_reward`: log D - log1p (-D) with
D = forward(state, action). -/
noncomputable def GAILDiscriminator.predict_reward {s a h B : ℕ}
    (d : GAILDiscriminator s a h)
    (state : Fin B → Fin s → ℝ) (action : Fin B → Fin a) : Fin B → ℝ :=
  fun b => Real.log (d.forward state action b) - log1p (-(d.forward state action b))

/-- The mutable attribute state of `GMMILDiscriminator`: `self.gamma_1` and
`self.gamma_2`, both initialised to None. -/
structure GMMILState where
  gamma_1 : Option ℝ
  gamma_2 : Option ℝ

/-- Source method `GMMILDiscriminator.predict_reward`, with the attribute state passed
explicitly.  When `gamma_1` is None both bandwidths are set by the median
heuristic; then the sum of the two kernel row means over the agent-expert
distances is returned, together with the post-call state.  `none` models
the Python `TypeError` when `gamma_1` is set but `gamma_2` is None. -/
noncomputable def GMMILDiscriminator.predict_reward {B E s a : ℕ}
    (state_only : Bool) (st : GMMILState)
    (state : Fin B → Fin s → ℝ) (action : Fin B → Fin a)
    (expert_state : Fin E → Fin s → ℝ) (expert_action : Fin E → Fin a) :
    Option ((Fin B → ℝ) × GMMILState) :=
  let state_action := batchInput state_only state action
  let expert_state_action := batchInput state_only expert_state expert_action
  let st' : GMMILState :=
    match st.gamma_1 with
    | none =>
        ⟨some (1 / medianList (flattenMatrix
            (_squared_distance state_action expert_state_action 1))),
         some (1 / medianList (flattenMatrix
            (_squared_distance expert_state_action expert_state_action 1)))⟩
    | some _ => st
  match st'.gamma_1, st'.gamma_2 with
  | some g1, some g2 =>
      let distances := _squared_distance state_action expert_state_action 1
      some (fun i =>
        meanDim1 (fun i' j => _gaussian_kernel (distances i' j) g1) i
          + meanDim1 (fun i' j => _gaussian_kernel (distances i' j) g2) i, st')
  | _, _ => none

/-- Source class `AIRLDiscriminator`: flag, discount, the linear reward
head `g` and the shaping MLP `h`. -/
structure AIRLDiscriminator (state_size action_size hidden_size : ℕ) where
  state_only : Bool
  discount : ℝ
  g : LinearParams (inputSize state_only state_size action_size) 1
  h : MLPParams state_size hidden_size 1

/-- Source method `AIRLDiscriminator.reward`: the linear head g on the (state or joined
state-action) input, squeezed over dim 1. -/
noncomputable def AIRLDiscriminator.reward {s a hs B : ℕ}
    (d : AIRLDiscriminator s a hs)
    (state : Fin B → Fin s → ℝ) (action : Fin B → Fin a) : Fin B → ℝ :=
  fun b => d.g.apply (batchInput d.state_only state action b) 0

/-- Source method `AIRLDiscriminator.value`: the shaping MLP h on the state, squeezed
over dim 1. -/
noncomputable def AIRLDiscriminator.value {s a hs B : ℕ}
    (d : AIRLDiscriminator s a hs) (state : Fin B → Fin s → ℝ) : Fin B → ℝ :=
  fun b => d.h.apply (state b) 0

/-- Source method `AIRLDiscriminator.forward`:
f = reward(s, a) + (1 - terminal) * (discount * value(s') - value(s)),
returning exp f / (exp f + policy). -/
noncomputable def AIRLDiscriminator.forward {s a hs B : ℕ}
    (d : AIRLDiscriminator s a hs)
    (state : Fin B → Fin s → ℝ) (action : Fin B → Fin a)
    (next_state : Fin B → Fin s → ℝ) (policy : Fin B → ℝ)
    (terminal : Fin B → ℝ) : Fin B → ℝ :=
  fun b =>
    let f := d.reward state action b
      + (1 - terminal b) * (d.discount * d.value next_state b - d.value state b)
    Real.exp f / (Real.exp f + policy b)

/-- Source method `AIRLDiscriminator.predict_reward`: log D - log1p (-D) with D the
forward output. -/
noncomputable def AIRLDiscriminator.predict_reward {s a hs B : ℕ}
    (d : AIRLDiscriminator s a hs)
    (state : Fin B → Fin s → ℝ) (action : Fin B → Fin a)
    (next_state : Fin B → Fin s → ℝ) (policy : Fin B → ℝ)
    (terminal : Fin B → ℝ) : Fin B → ℝ :=
  fun b =>
    Real.log (d.forward state action next_state policy terminal b)
      - log1p (-(d.forward state action next_state policy terminal b))

/-- Source class `EmbeddingNetwork`: an MLP whose output width equals its
input width. -/
structure EmbeddingNetwork (input_size hidden_size : ℕ) where
  embedding : MLPParams input_size hidden_size input_size

/-- Source method `EmbeddingNetwork.forward`. -/
noncomputable def EmbeddingNetwork.forward {i h : ℕ} (e : EmbeddingNetwork i h)
    (input : Fin i → ℝ) : Fin i → ℝ :=
  e.embedding.apply input

/-- Source class `REDDiscriminator`: flag, the unused `self.gamma`
attribute (None after init, never read or written again), and the
predictor and (frozen) target embedding networks. -/
structure REDDiscriminator (state_size action_size hidden_size : ℕ) where
  state_only : Bool
  gamma : Option ℝ
  predictor : EmbeddingNetwork (inputSize state_only state_size action_size) hidden_size
  target : EmbeddingNetwork (inputSize state_only state_size action_size) hidden_size

/-- Source method `REDDiscriminator.forward`: the pair (prediction, target) of embeddings
of the (state or joined state-action) input. -/
noncomputable def REDDiscriminator.forward {s a h B : ℕ}
    (d : REDDiscriminator s a h)
    (state : Fin B → Fin s → ℝ) (action : Fin B → Fin a) :
    (Fin B → Fin (inputSize d.state_only s a) → ℝ)
      × (Fin B → Fin (inputSize d.state_only s a) → ℝ) :=
  (fun b => d.predictor.forward (batchInput d.state_only state action b),
   fun b => d.target.forward (batchInput d.state_only state action b))

/-- F.pairwise_distance(x, y, p=2), idealised over ℝ: the Euclidean
distance between the two rows (the float implementation's numerical-
stability epsilon is dropped in the real-valued idealisation). -/
noncomputable def pairwise_distance {n : ℕ} (x y : Fin n → ℝ) : ℝ :=
  Real.sqrt (∑ k, (x k - y k) ^ 2)

/-- Source method `REDDiscriminator.predict_reward`: the Gaussian kernel with the
hard-coded gamma=1 of the squared pairwise distance between prediction and
target.  The `sigma` parameter (default 1 in the source) is accepted and,
as in the source, never used. -/
noncomputable def REDDiscriminator.predict_reward {s a h B : ℕ}
    (d : REDDiscriminator s a h)
    (state : Fin B → Fin s → ℝ) (action : Fin B → Fin a) (sigma : ℝ) :
    Fin B → ℝ :=
  fun b =>
    _gaussian_kernel
      (pairwise_distance ((d.forward state action).1 b)
        ((d.forward state action).2 b) ^ 2) 1

/-- The sigmoid takes values strictly between 0 and 1. -/
theorem sigmoid_mem_Ioo (x : ℝ) : 0 < sigmoid x ∧ sigmoid x < 1 := by
  have hd : (0 : ℝ) < 1 + Real.exp (-x) := by positivity
  constructor
  · exact div_pos one_pos hd
  · rw [sigmoid, div_lt_one hd]
    linarith [Real.exp_pos (-x)]

/-- C1: for every state input (and action input when state_only is false),
GAILDiscriminator.forward returns values strictly between 0 and 1: the
discriminator network ends in a sigmoid, so its output satisfies the (0,1)
domain constraint required by the log-odds transform. -/
theorem gail_forward_pos_lt_one {s a h B : ℕ} (d : GAILDiscriminator s a h)
    (state : Fin B → Fin s → ℝ) (action : Fin B → Fin a) (b : Fin B) :
    0 < d.forward state action b ∧ d.forward state action b < 1 :=
  sigmoid_mem_Ioo _

/-- C2: for every state and action, GAILDiscriminator.predict_reward equals
log D - log (1 - D), the log-odds (logit) of D, where D is the value of
GAILDiscriminator.forward on the same state and action. -/
theorem gail_predict_reward_log_odds {s a h B : ℕ} (d : GAILDiscriminator s a h)
    (state : Fin B → Fin s → ℝ) (action : Fin B → Fin a) (b : Fin B) :
    d.predict_reward state action b
      = Real.log (d.forward state action b)
        - Real.log (1 - d.forward state action b) := by
  simp only [GAILDiscriminator.predict_reward, log1p, ← sub_eq_add_neg]

/-- C3: AIRLDiscriminator.forward computes the shaped value
f = r(state, action) + (1 - terminal) * (discount * Phi(next_state) - Phi(state)),
where r is the linear reward head g on the (joined) state-action input and
Phi is the shaping network h, and returns exp f / (exp f + policy). -/
theorem airl_forward_eq {s a hs B : ℕ} (d : AIRLDiscriminator s a hs)
    (state : Fin B → Fin s → ℝ) (action : Fin B → Fin a)
    (next_state : Fin B → Fin s → ℝ) (policy : Fin B → ℝ)
    (terminal : Fin B → ℝ) (b : Fin B) :
    d.forward state action next_state policy terminal b
      = Real.exp (d.g.apply (batchInput d.state_only state action b) 0
            + (1 - terminal b) * (d.discount * d.h.apply (next_state b) 0
                - d.h.apply (state b) 0))
        / (Real.exp (d.g.apply (batchInput d.state_only state action b) 0
            + (1 - terminal b) * (d.discount * d.h.apply (next_state b) 0
                - d.h.apply (state b) 0))
          + policy b) :=
  rfl

/-- C10: REDDiscriminator.predict_reward does not depend on its sigma
argument: any two sigma values give equal outputs, because the kernel is
evaluated with the hard-coded bandwidth gamma = 1. -/
theorem red_predict_reward_sigma_independent {s a h B : ℕ}
    (d : REDDiscriminator s a h)
    (state : Fin B → Fin s → ℝ) (action : Fin B → Fin a)
    (sigma1 sigma2 : ℝ) :
    d.predict_reward state action sigma1 = d.predict_reward state action sigma2 :=
  rfl

/-- All-zero parameters of a linear layer, used to instantiate concrete
networks. -/
noncomputable def zeroLinear (i o : ℕ) : LinearParams i o :=
  ⟨fun _ _ => 0, fun _ => 0⟩

/-- All-zero parameters of the three-layer MLP. -/
noncomputable def zeroMLP (i h o : ℕ) : MLPParams i h o :=
  ⟨zeroLinear i h, zeroLinear h h, zeroLinear h o⟩

/-- For positive p, exp x / (exp x + p) lies strictly between 0 and 1. -/
theorem exp_ratio_mem_Ioo (x p : ℝ) (hp : 0 < p) :
    0 < Real.exp x / (Real.exp x + p) ∧ Real.exp x / (Real.exp x + p) < 1 := by
  have hd : 0 < Real.exp x + p := add_pos (Real.exp_pos x) hp
  exact ⟨div_pos (Real.exp_pos x) hd, (div_lt_one hd).mpr (by linarith)⟩

/-- C4: whenever the supplied policy probability is strictly positive, the
value D returned by AIRLDiscriminator.forward lies strictly in (0,1), so in
AIRLDiscriminator.predict_reward both log D and log (1 - D) (the value of
log1p (-D)) are taken at strictly positive arguments. -/
theorem airl_forward_pos_lt_one {s a hs B : ℕ} (d : AIRLDiscriminator s a hs)
    (state : Fin B → Fin s → ℝ) (action : Fin B → Fin a)
    (next_state : Fin B → Fin s → ℝ) (policy : Fin B → ℝ)
    (terminal : Fin B → ℝ) (b : Fin B) (hp : 0 < policy b) :
    0 < d.forward state action next_state policy terminal b
      ∧ d.forward state action next_state policy terminal b < 1
      ∧ 0 < 1 - d.forward state action next_state policy terminal b := by
  have hD : d.forward state action next_state policy terminal b
      = Real.exp (d.reward state action b
          + (1 - terminal b) * (d.discount * d.value next_state b - d.value state b))
        / (Real.exp (d.reward state action b
          + (1 - terminal b) * (d.discount * d.value next_state b - d.value state b))
          + policy b) := rfl
  obtain ⟨h1, h2⟩ := exp_ratio_mem_Ioo
    (d.reward state action b
      + (1 - terminal b) * (d.discount * d.value next_state b - d.value state b))
    (policy b) hp
  rw [hD]
  exact ⟨h1, h2, by linarith⟩

/-- Witness for C4 at an all-zero discriminator and concrete inputs. -/
theorem airl_forward_pos_lt_one_witness :
    (0 : ℝ) < 1
      ∧ (0 < (AIRLDiscriminator.mk false (1 / 2)
            (zeroLinear (inputSize false 1 1) 1) (zeroMLP 1 1 1)).forward
            (fun (_ : Fin 1) (_ : Fin 1) => 0) (fun _ => 0) (fun _ _ => 0)
            (fun _ => 1) (fun _ => 0) 0
        ∧ (AIRLDiscriminator.mk false (1 / 2)
            (zeroLinear (inputSize false 1 1) 1) (zeroMLP 1 1 1)).forward
            (fun (_ : Fin 1) (_ : Fin 1) => 0) (fun _ => 0) (fun _ _ => 0)
            (fun _ => 1) (fun _ => 0) 0 < 1
        ∧ 0 < 1 - (AIRLDiscriminator.mk false (1 / 2)
            (zeroLinear (inputSize false 1 1) 1) (zeroMLP 1 1 1)).forward
            (fun (_ : Fin 1) (_ : Fin 1) => 0) (fun _ => 0) (fun _ _ => 0)
            (fun _ => 1) (fun _ => 0) 0) :=
  ⟨one_pos,
   airl_forward_pos_lt_one
     (AIRLDiscriminator.mk false (1 / 2)
       (zeroLinear (inputSize false 1 1) 1) (zeroMLP 1 1 1))
     (fun _ _ => 0) (fun _ => 0) (fun _ _ => 0) (fun _ => 1) (fun _ => 0) 0
     one_pos⟩

/-- C7: Actor.forward returns a categorical distribution over action_size
actions whose probability vector is the softmax of the actor network's
logits: every probability is nonnegative and the probabilities sum to 1
(for a positive number of actions). -/
theorem actor_forward_is_distribution {s a h B : ℕ} (m : Actor s a h)
    (state : Fin B → Fin s → ℝ) (b : Fin B) (ha : 0 < a) :
    (∀ i, 0 ≤ (m.forward state b).probs i)
      ∧ ∑ i, (m.forward state b).probs i = 1 := by
  have hne : (Finset.univ : Finset (Fin a)).Nonempty :=
    Finset.univ_nonempty_iff.mpr (Fin.pos_iff_nonempty.mp ha)
  have hS : 0 < ∑ j, Real.exp (m.actor.apply (state b) j) :=
    Finset.sum_pos (fun j _ => Real.exp_pos _) hne
  constructor
  · intro i
    exact div_nonneg (Real.exp_pos _).le hS.le
  · show (∑ i, Real.exp (m.actor.apply (state b) i)
        / ∑ j, Real.exp (m.actor.apply (state b) j)) = 1
    rw [← Finset.sum_div]
    exact div_self hS.ne'

/-- Witness for C7 at an all-zero actor with one action. -/
theorem actor_forward_is_distribution_witness :
    0 < 1
      ∧ ((∀ i, 0 ≤ ((Actor.mk (zeroMLP 1 1 1)).forward
            (fun (_ : Fin 1) (_ : Fin 1) => 0) 0).probs i)
        ∧ ∑ i, ((Actor.mk (zeroMLP 1 1 1)).forward
            (fun (_ : Fin 1) (_ : Fin 1) => 0) 0).probs i = 1) :=
  ⟨Nat.one_pos,
   actor_forward_is_distribution (Actor.mk (zeroMLP 1 1 1))
     (fun _ _ => 0) 0 Nat.one_pos⟩

/-- C8: every entry of _squared_distance is nonnegative (clamped below at
0), and _gaussian_kernel applied to it with nonnegative gamma lies in
(0, 1]. -/
theorem sqdist_nonneg_kernel_Ioc {n m dm : ℕ} (X : Fin n → Fin dm → ℝ)
    (Y : Fin m → Fin dm → ℝ) (lengthscale gamma : ℝ)
    (hl : 0 < lengthscale) (hg : 0 ≤ gamma) (i : Fin n) (j : Fin m) :
    0 ≤ _squared_distance X Y lengthscale i j
      ∧ 0 < _gaussian_kernel (_squared_distance X Y lengthscale i j) gamma
      ∧ _gaussian_kernel (_squared_distance X Y lengthscale i j) gamma ≤ 1 := by
  have hd : 0 ≤ _squared_distance X Y lengthscale i j := le_max_right _ _
  refine ⟨hd, Real.exp_pos _, ?_⟩
  rw [_gaussian_kernel, Real.exp_le_one_iff, neg_mul]
  exact neg_nonpos_of_nonneg (mul_nonneg hg hd)

/-- Witness for C8 at one-entry zero matrices, unit lengthscale and unit
gamma. -/
theorem sqdist_nonneg_kernel_Ioc_witness :
    (0 : ℝ) < 1 ∧ (0 : ℝ) ≤ 1
      ∧ (0 ≤ _squared_distance (fun (_ : Fin 1) (_ : Fin 1) => (0 : ℝ))
            (fun (_ : Fin 1) (_ : Fin 1) => (0 : ℝ)) 1 0 0
        ∧ 0 < _gaussian_kernel (_squared_distance
            (fun (_ : Fin 1) (_ : Fin 1) => (0 : ℝ))
            (fun (_ : Fin 1) (_ : Fin 1) => (0 : ℝ)) 1 0 0) 1
        ∧ _gaussian_kernel (_squared_distance
            (fun (_ : Fin 1) (_ : Fin 1) => (0 : ℝ))
            (fun (_ : Fin 1) (_ : Fin 1) => (0 : ℝ)) 1 0 0) 1 ≤ 1) :=
  ⟨one_pos, zero_le_one,
   sqdist_nonneg_kernel_Ioc (fun (_ : Fin 1) (_ : Fin 1) => (0 : ℝ))
     (fun (_ : Fin 1) (_ : Fin 1) => (0 : ℝ)) 1 1 one_pos zero_le_one 0 0⟩

/-- C9: REDDiscriminator.predict_reward returns values in (0, 1]: it equals
exp (-d) for d the nonnegative squared Euclidean distance between the
predictor and target embeddings of the (joined) state-action input, and
equals 1 exactly when the two embeddings coincide. -/
theorem red_predict_reward_range {s a h B : ℕ} (d : REDDiscriminator s a h)
    (state : Fin B → Fin s → ℝ) (action : Fin B → Fin a) (sigma : ℝ)
    (b : Fin B) :
    0 < d.predict_reward state action sigma b
      ∧ d.predict_reward state action sigma b ≤ 1
      ∧ (d.predict_reward state action sigma b = 1
          ↔ ∀ k, (d.forward state action).1 b k = (d.forward state action).2 b k) := by
  have hsum : 0 ≤ ∑ k, ((d.forward state action).1 b k
      - (d.forward state action).2 b k) ^ 2 :=
    Finset.sum_nonneg fun k _ => sq_nonneg _
  have hsq : pairwise_distance ((d.forward state action).1 b)
      ((d.forward state action).2 b) ^ 2
      = ∑ k, ((d.forward state action).1 b k
          - (d.forward state action).2 b k) ^ 2 :=
    Real.sq_sqrt hsum
  have hval : d.predict_reward state action sigma b
      = Real.exp (-(1 : ℝ) * ∑ k, ((d.forward state action).1 b k
          - (d.forward state action).2 b k) ^ 2) := by
    show _gaussian_kernel _ 1 = _
    rw [_gaussian_kernel, hsq]
  refine ⟨hval ▸ Real.exp_pos _, ?_, ?_⟩
  · rw [hval, Real.exp_le_one_iff, neg_one_mul]
    exact neg_nonpos_of_nonneg hsum
  · rw [hval, Real.exp_eq_one_iff, neg_one_mul, neg_eq_zero,
      Finset.sum_eq_zero_iff_of_nonneg (fun k _ => sq_nonneg _)]
    constructor
    · intro hz k
      have := hz k (Finset.mem_univ k)
      rw [pow_eq_zero_iff two_ne_zero, sub_eq_zero] at this
      exact this
    · intro hk k _
      rw [pow_eq_zero_iff two_ne_zero, sub_eq_zero]
      exact hk k

/-- C5: on a call with gamma_1 = None, GMMILDiscriminator.predict_reward
sets gamma_1 to 1 over the median of the squared distances between the
agent batch and the expert batch and gamma_2 to 1 over the median of the
squared distances within the expert batch, and returns the kernel row-mean
sum computed with those bandwidths; on a call with both bandwidths stored,
it reuses the stored values unchanged regardless of its inputs. -/
theorem gmmil_median_heuristic {B E s a : ℕ} (so : Bool)
    (state : Fin B → Fin s → ℝ) (action : Fin B → Fin a)
    (expert_state : Fin E → Fin s → ℝ) (expert_action : Fin E → Fin a)
    (g2 : Option ℝ) :
    (GMMILDiscriminator.predict_reward so ⟨none, g2⟩
        state action expert_state expert_action
      = some (fun i =>
          meanDim1 (fun i' j => _gaussian_kernel
            (_squared_distance (batchInput so state action)
              (batchInput so expert_state expert_action) 1 i' j)
            (1 / medianList (flattenMatrix
              (_squared_distance (batchInput so state action)
                (batchInput so expert_state expert_action) 1)))) i
          + meanDim1 (fun i' j => _gaussian_kernel
            (_squared_distance (batchInput so state action)
              (batchInput so expert_state expert_action) 1 i' j)
            (1 / medianList (flattenMatrix
              (_squared_distance (batchInput so expert_state expert_action)
                (batchInput so expert_state expert_action) 1)))) i,
         ⟨some (1 / medianList (flattenMatrix
             (_squared_distance (batchInput so state action)
               (batchInput so expert_state expert_action) 1))),
          some (1 / medianList (flattenMatrix
             (_squared_distance (batchInput so expert_state expert_action)
               (batchInput so expert_state expert_action) 1)))⟩))
    ∧ ∀ g1 g2' : ℝ,
        GMMILDiscriminator.predict_reward so ⟨some g1, some g2'⟩
            state action expert_state expert_action
          = some (fun i =>
              meanDim1 (fun i' j => _gaussian_kernel
                (_squared_distance (batchInput so state action)
                  (batchInput so expert_state expert_action) 1 i' j) g1) i
              + meanDim1 (fun i' j => _gaussian_kernel
                (_squared_distance (batchInput so state action)
                  (batchInput so expert_state expert_action) 1 i' j) g2') i,
             ⟨some g1, some g2'⟩) :=
  ⟨rfl, fun _ _ => rfl⟩

/-- C6 counterexample: the first call to GMMILDiscriminator.predict_reward
does NOT leave the module's state unchanged: starting from the initial
state (gamma_1 = gamma_2 = None), with agent batch [[2]] and expert batch
[[0], [1], [3]] (all medians nonzero, so the Python code runs to
completion), the post-call state has both bandwidths set. -/
theorem gmmil_first_call_mutates_state :
    (GMMILDiscriminator.predict_reward true ⟨none, none⟩
        (fun (_ : Fin 1) (_ : Fin 1) => (2 : ℝ)) (fun _ => (0 : Fin 1))
        (fun (i : Fin 3) (_ : Fin 1) =>
          if i = 0 then (0 : ℝ) else if i = 1 then 1 else 3)
        (fun _ => (0 : Fin 1))).map Prod.snd
      ≠ some ⟨none, none⟩ := by
  intro hcontra
  exact Option.noConfusion (congrArg GMMILState.gamma_1 (Option.some.inj hcontra))

/-- C6 (amended): after any completed call to
GMMILDiscriminator.predict_reward, the stored bandwidth state is fixed:
every further call, on any inputs, returns that state unchanged (mutation
can only happen on the first call, when gamma_1 is None; all other
forward / predict_reward units of the module are parameter-pure and are
embedded without any state at all). -/
theorem gmmil_state_stable_after_first_call
    {B E s a B' E' s' a' : ℕ} (so so' : Bool) (st st1 : GMMILState)
    (state : Fin B → Fin s → ℝ) (action : Fin B → Fin a)
    (expert_state : Fin E → Fin s → ℝ) (expert_action : Fin E → Fin a)
    (state' : Fin B' → Fin s' → ℝ) (action' : Fin B' → Fin a')
    (expert_state' : Fin E' → Fin s' → ℝ) (expert_action' : Fin E' → Fin a')
    (h : (GMMILDiscriminator.predict_reward so st
        state action expert_state expert_action).map Prod.snd = some st1) :
    (GMMILDiscriminator.predict_reward so' st1
        state' action' expert_state' expert_action').map Prod.snd = some st1 := by
  obtain ⟨x, y, rfl⟩ : ∃ x y, st1 = GMMILState.mk (some x) (some y) := by
    obtain ⟨g1, g2⟩ := st
    cases g1 with
    | none => exact ⟨_, _, (Option.some.inj h).symm⟩
    | some g1 =>
        cases g2 with
        | none => exact Option.noConfusion h
        | some g2 => exact ⟨g1, g2, (Option.some.inj h).symm⟩
  rfl

/-- Witness for the amended C6: a call from the already-set state
(gamma_1 = gamma_2 = 1) returns that state, and so does the next call. -/
theorem gmmil_state_stable_after_first_call_witness :
    ((GMMILDiscriminator.predict_reward true ⟨some 1, some 1⟩
        (fun (_ : Fin 1) (_ : Fin 1) => (0 : ℝ)) (fun _ => (0 : Fin 1))
        (fun (_ : Fin 1) (_ : Fin 1) => (0 : ℝ)) (fun _ => (0 : Fin 1))).map Prod.snd
      = some ⟨some 1, some 1⟩)
    ∧ ((GMMILDiscriminator.predict_reward true ⟨some 1, some 1⟩
        (fun (_ : Fin 2) (_ : Fin 1) => (5 : ℝ)) (fun _ => (0 : Fin 1))
        (fun (_ : Fin 1) (_ : Fin 1) => (7 : ℝ)) (fun _ => (0 : Fin 1))).map Prod.snd
      = some ⟨some 1, some 1⟩) :=
  ⟨rfl,
   gmmil_state_stable_after_first_call true true ⟨some 1, some 1⟩ ⟨some 1, some 1⟩
     (fun (_ : Fin 1) (_ : Fin 1) => (0 : ℝ)) (fun _ => (0 : Fin 1))
     (fun (_ : Fin 1) (_ : Fin 1) => (0 : ℝ)) (fun _ => (0 : Fin 1))
     (fun (_ : Fin 2) (_ : Fin 1) => (5 : ℝ)) (fun _ => (0 : Fin 1))
     (fun (_ : Fin 1) (_ : Fin 1) => (7 : ℝ)) (fun _ => (0 : Fin 1)) rfl⟩

end IL
